import Mathlib

/-!
Verification development for the AI voice-survey backend.

The definitions below are a shallow embedding of the call pipeline:
the Twilio webhook handlers (`app/routers/webhooks.py`), the LiveKit
survey voice agent (`app/services/livekit_voice_agent.py`), outbound
call placement (`app/services/livekit_outbound.py`), the campaign
dispatchers (`app/routers/campaigns.py`, `app/services/call_orchestrator.py`)
and the audio converter (`app/services/audio_converter.py`).

The Supabase store is modelled as lists of records, one list per table;
`insert` appends, `update ... eq` maps over the matching rows, `select ... eq`
is `List.find?`.  External collaborators (Twilio, LiveKit, the mapping LLM)
are modelled by explicit outcome parameters.  Base64 transport in the audio
converter is omitted: frames are lists of samples (it is a bijective
re-encoding that carries no logic).
-/

namespace VoiceSurvey

/-! ### Data model -/

/-- One raw captured answer as held in agent memory
(`SurveyVoiceAgent.raw_responses`, see `store_response`). -/
structure RawResponse where
  question_id : String
  question_text : String
  answer : String
  timestamp : String
deriving Repr, DecidableEq

/-- The shape in which raw responses are persisted to the `call_logs` table:
`store_response` writes dicts with keys `question_id` and `raw_response`. -/
structure StoredRawResponse where
  question_id : String
  raw_response : String
deriving Repr, DecidableEq

/-- One mapped (normalized) response, keys `question_id` / `mapped_response`. -/
structure MappedResponse where
  question_id : String
  mapped_response : String
deriving Repr, DecidableEq

/-- A row of the `call_logs` table (the CallAttempt record). -/
structure CallLog where
  twilio_call_sid : String
  contact_id : String
  status : String
  call_duration : Nat
  consent : Bool
  raw_transcript : String
  raw_responses : List StoredRawResponse
  mapped_responses : List MappedResponse
  recording_url : Option String
deriving Repr, DecidableEq

/-- A question of the survey questionnaire (`json_questionnaire.questions`). -/
structure Question where
  question_id : String
  question_text : String
  question_type : String
  options : List String
deriving Repr, DecidableEq

/-- A row of the `surveys` table (the fields the call pipeline reads). -/
structure Survey where
  survey_id : String
  user_id : String
  status : String
  questions : List Question
deriving Repr, DecidableEq

/-- A row of the `contact` table (the fields the call pipeline reads/writes). -/
structure Contact where
  contact_id : String
  survey_id : String
  phone_number : String
  call_status : Option String
  last_call_error : Option String
deriving Repr, DecidableEq

/-- A row of the `users` table (the field the outbound path reads). -/
structure UserRec where
  user_id : String
  livekit_trunk_id : Option String
deriving Repr, DecidableEq

/-- The record store, one list of rows per table. -/
structure DB where
  call_logs : List CallLog
  contacts : List Contact
  surveys : List Survey
  users : List UserRec
deriving Repr, DecidableEq

/-! ### Store primitives -/

/-- Model of `db.table("call_logs").select(...).eq("twilio_call_sid", sid)`. -/
def findCallLog (db : DB) (sid : String) : Option CallLog :=
  db.call_logs.find? (fun r => r.twilio_call_sid == sid)

/-- Model of `db.table("call_logs").update(data).eq("twilio_call_sid", sid)`. -/
def updateCallLogs (db : DB) (sid : String) (f : CallLog → CallLog) : DB :=
  { db with
    call_logs := db.call_logs.map (fun r => if r.twilio_call_sid == sid then f r else r) }

/-- Model of `db.table("call_logs").insert(record)`. -/
def insertCallLog (db : DB) (r : CallLog) : DB :=
  { db with call_logs := db.call_logs ++ [r] }

/-- Model of `db.table("contact").update(data).eq("contact_id", cid)`. -/
def updateContactRow (db : DB) (cid : String) (f : Contact → Contact) : DB :=
  { db with
    contacts := db.contacts.map (fun c => if c.contact_id == cid then f c else c) }

/-- Model of `db.table("surveys").update(data).eq("survey_id", sid)`. -/
def updateSurveyRow (db : DB) (sid : String) (f : Survey → Survey) : DB :=
  { db with
    surveys := db.surveys.map (fun s => if s.survey_id == sid then f s else s) }

/-! ### Call lifecycle webhooks (`app/routers/webhooks.py`) -/

/-- Python truthiness of an optional form/query value: `None` and the empty
string are falsy. -/
def truthy : Option String → Bool
  | none => false
  | some s => !(s == "")

/-- The initial call-log record shape shared by the three creation sites
(`twilio_voice_webhook`, `initiate_outbound_call` and
`SurveyVoiceAgent.on_enter` insert exactly these fields, differing only in
the initial status). -/
def initialCallLog (call_sid contact_id status : String) : CallLog :=
  { twilio_call_sid := call_sid
    contact_id := contact_id
    status := status
    call_duration := 0
    consent := false
    raw_transcript := ""
    raw_responses := []
    mapped_responses := []
    recording_url := none }

/-- Model of `call_status.replace("-", "_")` (single-character pattern,
so a character-wise map is exact). -/
def normalizeStatus (s : String) : String :=
  ⟨s.data.map (fun c => if c = '-' then '_' else c)⟩

/-- The terminal call statuses of the lifecycle state machine. -/
def isTerminal (s : String) : Bool :=
  s == "completed" || s == "failed" || s == "busy" || s == "no_answer"

/-- The fields of a Twilio status callback that the handler reads. -/
structure StatusNotification where
  callSid : Option String
  callStatus : Option String
  callDuration : Nat
  recordingUrl : Option String
deriving Repr, DecidableEq

/-- Model of `twilio_status_webhook`: if both `CallSid` and `CallStatus` are
truthy, normalize the status and, when a call log with that sid exists,
overwrite its status and duration (and, when given, the recording url);
when no call log exists the update is skipped.  The HTTP 200 acknowledgement
is unconditional and not modelled. -/
def twilio_status_webhook (db : DB) (n : StatusNotification) : DB :=
  if truthy n.callSid && truthy n.callStatus then
    let sid := n.callSid.getD ""
    let dbStatus := normalizeStatus (n.callStatus.getD "")
    if (findCallLog db sid).isSome then
      updateCallLogs db sid (fun r =>
        { r with
          status := dbStatus
          call_duration := n.callDuration
          recording_url := if truthy n.recordingUrl then n.recordingUrl else r.recording_url })
    else db
  else db

/-- Model of `twilio_recording_webhook`: only a `completed` recording with a
url and a call sid is processed; when a call log exists its recording url is
set, otherwise the notification is skipped. -/
def twilio_recording_webhook (db : DB)
    (callSid recordingUrl recordingStatus : Option String) : DB :=
  if recordingStatus == some "completed" && truthy recordingUrl && truthy callSid then
    let sid := callSid.getD ""
    if (findCallLog db sid).isSome then
      updateCallLogs db sid (fun r => { r with recording_url := recordingUrl })
    else db
  else db

/-- The TwiML responses `twilio_voice_webhook` can return. -/
inductive TwiMLResponse
  | contactNotFound
  | surveyNotFound
  | noQuestions
  | dialSip (roomName : String)
  | roomError
deriving Repr, DecidableEq

/-- Model of `twilio_voice_webhook`: look up the contact and its survey,
require a non-empty questionnaire, create the LiveKit room (outcome given by
`room_create_ok`), insert the initial call log and answer with SIP-dial
TwiML. -/
def twilio_voice_webhook (db : DB) (contact_id call_sid : String)
    (room_create_ok : Bool) : DB × TwiMLResponse :=
  match db.contacts.find? (fun c => c.contact_id == contact_id) with
  | none => (db, .contactNotFound)
  | some contact =>
    match db.surveys.find? (fun s => s.survey_id == contact.survey_id) with
    | none => (db, .surveyNotFound)
    | some survey =>
      if survey.questions.isEmpty then (db, .noQuestions)
      else if room_create_ok then
        let db1 := insertCallLog db (initialCallLog call_sid contact_id "in_progress")
        (db1, .dialSip ("survey-" ++ call_sid))
      else (db, .roomError)

/-! ### Conversation agent (`app/services/livekit_voice_agent.py`) -/

/-- One turn of the conversation history. -/
structure TranscriptItem where
  role : String
  content : String
deriving Repr, DecidableEq

/-- The in-memory state of a `SurveyVoiceAgent` instance. -/
structure AgentState where
  survey : Survey
  contact_id : String
  call_sid : String
  conversation_transcript : List TranscriptItem
  raw_responses : List RawResponse
  consent_given : Bool
deriving Repr, DecidableEq

/-- Model of the `store_consent` tool: record consent in agent memory and
persist it on the call log. -/
def store_consent (db : DB) (a : AgentState) (consent : Bool) : DB × AgentState :=
  let a1 := { a with consent_given := consent }
  (updateCallLogs db a.call_sid (fun r => { r with consent := consent }), a1)

/-- Model of the `store_response` tool: append the answer to agent memory and
persist the whole list (projected to stored shape) on the call log. -/
def store_response (db : DB) (a : AgentState)
    (question_id question_text answer timestamp : String) : DB × AgentState :=
  let a1 := { a with
    raw_responses := a.raw_responses ++
      [{ question_id := question_id, question_text := question_text,
         answer := answer, timestamp := timestamp }] }
  let db1 := updateCallLogs db a.call_sid (fun r =>
    { r with raw_responses := a1.raw_responses.map (fun rr =>
        { question_id := rr.question_id, raw_response := rr.answer }) })
  (db1, a1)

/-- Model of the `end_survey_call` tool: mark the call log completed. -/
def end_survey_call (db : DB) (a : AgentState) : DB :=
  updateCallLogs db a.call_sid (fun r => { r with status := "completed" })

/-- Model of `SurveyVoiceAgent.on_enter`: create the initial call log when
none exists for the call sid (the greeting itself is speech, not state). -/
def on_enter (db : DB) (a : AgentState) : DB :=
  if (findCallLog db a.call_sid).isSome then db
  else insertCallLog db (initialCallLog a.call_sid a.contact_id "in_progress")

/-- Model of `SurveyVoiceAgent._build_transcript`. -/
def build_transcript (items : List TranscriptItem) : String :=
  if items.isEmpty then ""
  else String.intercalate "\n"
    (items.map (fun it => it.role.toUpper ++ ": " ++ it.content))

/-- Model of `SurveyVoiceAgent._map_responses_with_llm`.  The chat-completion
call and JSON parse are external; `llm_output = some parsed` models a
reachable model whose reply parsed as JSON (the code returns the parsed value
as-is, without validating length or ids), `llm_output = none` models an
unreachable model or malformed output, in which case the `except` branch
returns the identity mapping over the raw responses. -/
def map_responses_with_llm (raw_responses : List RawResponse)
    (llm_output : Option (List MappedResponse)) : List MappedResponse :=
  match llm_output with
  | some parsed => parsed
  | none => raw_responses.map (fun r =>
      { question_id := r.question_id, mapped_response := r.answer })

/-- Model of `SurveyVoiceAgent.on_exit`: persist the assembled transcript and
set status `completed`; then, when at least one raw response was captured,
map the responses and persist the result. -/
def on_exit (db : DB) (a : AgentState)
    (llm_output : Option (List MappedResponse)) : DB :=
  let transcript := build_transcript a.conversation_transcript
  let db1 := updateCallLogs db a.call_sid (fun r =>
    { r with raw_transcript := transcript, status := "completed" })
  if a.raw_responses.isEmpty then db1
  else
    let mapped := map_responses_with_llm a.raw_responses llm_output
    updateCallLogs db1 a.call_sid (fun r => { r with mapped_responses := mapped })

/-! ### Outbound placement (`app/services/livekit_outbound.py`) -/

/-- The value `initiate_outbound_call` returns on success. -/
structure OutboundResult where
  room_name : String
  call_sid : String
deriving Repr, DecidableEq

/-- The trunk lookup of `initiate_outbound_call`: survey row gives the owner,
the owner's user row gives `livekit_trunk_id`. -/
def lookupTrunk (db : DB) (survey_id : String) : Option String :=
  (db.surveys.find? (fun s => s.survey_id == survey_id)).bind (fun s =>
    (db.users.find? (fun u => u.user_id == s.user_id)).bind
      (fun u => u.livekit_trunk_id))

/-- Model of `initiate_outbound_call`.  The generated uuid call sid is passed
in by the caller; `dispatch_ok` is the outcome of the external LiveKit agent
dispatch.  Without a trunk the call raises before any insert; otherwise the
initial call log is inserted and then the dispatch either succeeds or
raises. -/
def initiate_outbound_call (db : DB)
    (to_phone survey_id contact_id call_sid : String)
    (trunk_id : Option String) (dispatch_ok : Bool) :
    DB × Except String OutboundResult :=
  let trunk : Option String :=
    match trunk_id with
    | some t => some t
    | none => lookupTrunk db survey_id
  match trunk with
  | none => (db, .error "No SIP trunk configured")
  | some _ =>
    let db1 := insertCallLog db (initialCallLog call_sid contact_id "initiated")
    if dispatch_ok then
      (db1, .ok { room_name := "survey-" ++ call_sid, call_sid := call_sid })
    else (db1, .error "Agent dispatch failed")

/-! ### Campaign dispatchers (`app/routers/campaigns.py`,
`app/services/call_orchestrator.py`) -/

/-- The contact-row update written by the campaign loop on a failed
placement: `call_status = "failed"` with the stringified error. -/
def markContactFailed (e : String) (ct : Contact) : Contact :=
  { ct with call_status := some "failed", last_call_error := some e }

/-- One loop iteration of `execute_campaign_calls`: place the call (passing no
trunk id, as the source does) and on any error mark the contact row failed;
either way the contact counts as attempted. -/
def campaignStep (survey_id : String) (sid_of : String → String)
    (dispatch_ok : String → Bool) (acc : DB × List String) (c : Contact) :
    DB × List String :=
  let r := initiate_outbound_call acc.1 c.phone_number survey_id c.contact_id
    (sid_of c.contact_id) none (dispatch_ok c.contact_id)
  match r.2 with
  | .ok _ => (r.1, acc.2 ++ [c.contact_id])
  | .error e =>
    (updateContactRow r.1 c.contact_id (markContactFailed e),
     acc.2 ++ [c.contact_id])

/-- Model of `execute_campaign_calls`: sequentially attempt every contact
(`sid_of` supplies the generated call sid, `dispatch_ok` the external dispatch
outcome per contact), never halting on an error, then set the survey status to
`closed`.  The second component is the trace of contacts that received a
placement attempt.  The `trunk_id` and `phone_number` arguments are accepted
but, as in the source, not forwarded to the per-call placement. -/
def execute_campaign_calls (db : DB) (survey_id : String)
    (contacts : List Contact) (trunk_id phone_number : String)
    (sid_of : String → String) (dispatch_ok : String → Bool) :
    DB × List String :=
  let r := contacts.foldl (campaignStep survey_id sid_of dispatch_ok) (db, [])
  (updateSurveyRow r.1 survey_id (fun s => { s with status := "closed" }), r.2)

/-- The rejections the campaign endpoints can answer with. -/
inductive CampaignError
  | surveyNotFound
  | surveyNotActive
  | noContacts
deriving Repr, DecidableEq

/-- The immediate answer of `start_campaign`. -/
structure StartCampaignResult where
  calls_queued : Nat
  total_contacts : Nat
deriving Repr, DecidableEq

/-- Model of `call_orchestrator.start_campaign`: require an owned survey
(`get_survey` answers 404 otherwise), require status `active`, require at
least one contact, then queue one background call per contact and return
immediately. -/
def start_campaign (db : DB) (survey_id user_id : String) :
    Except CampaignError StartCampaignResult :=
  match db.surveys.find? (fun s => s.survey_id == survey_id && s.user_id == user_id) with
  | none => .error .surveyNotFound
  | some survey =>
    if survey.status != "active" then .error .surveyNotActive
    else
      let contacts := db.contacts.filter (fun c => c.survey_id == survey_id)
      if contacts.isEmpty then .error .noContacts
      else .ok { calls_queued := contacts.length, total_contacts := contacts.length }

/-- The immediate answer of the `/campaigns/launch` endpoint. -/
structure LaunchCampaignResult where
  total_contacts : Nat
  estimated_duration_minutes : Nat
deriving Repr, DecidableEq

/-- Model of `launch_campaign`: require an owned survey and at least one
contact (phone and trunk provisioning are external and modelled as
succeeding), restrict to the first contact in test mode, set the survey
status to `active` (no active-status precondition is checked), queue the
background dispatch and return the estimate of three minutes per contact. -/
def launch_campaign (db : DB) (survey_id user_id : String) (test_mode : Bool) :
    Except CampaignError (DB × LaunchCampaignResult) :=
  match db.surveys.find? (fun s => s.survey_id == survey_id && s.user_id == user_id) with
  | none => .error .surveyNotFound
  | some _ =>
    let contacts := db.contacts.filter (fun c => c.survey_id == survey_id)
    if contacts.isEmpty then .error .noContacts
    else
      let dialed := if test_mode then contacts.take 1 else contacts
      let db1 := updateSurveyRow db survey_id (fun s => { s with status := "active" })
      .ok (db1, { total_contacts := dialed.length,
                  estimated_duration_minutes := dialed.length * 3 })

/-! ### Audio codec bridge (`app/services/audio_converter.py`)

The converter delegates to the CPython `audioop` module; its semantics are
embedded here at the sample level.  `ratecv` keeps 32-bit scaled samples
(input samples are shifted left 16 bits on read and emitted samples shifted
right 16 bits on write) and interpolates linearly between the previous and
the current input sample, with a carried position `d`; the C cast of the
interpolation quotient truncates toward zero (`Int.tdiv`), the arithmetic
right shift is `Int.fdiv` by 65536. -/

/-- The inner emit loop of `audioop.ratecv`: while `d` is non-negative emit
one interpolated sample and decrease `d` by the (gcd-reduced) input rate.
The fuel argument makes the recursion structural; `emitLoop` below supplies
`d.toNat + 1`, which is enough fuel whenever the input rate is at least 1
(each pass lowers `d` by at least one, and the loop exits once `d` is
negative). -/
def emitLoopFuel (inr outr prev cur : Int) : Nat → Int → List Int × Int
  | 0, d => ([], d)
  | fuel + 1, d =>
    if 0 ≤ d then
      let out := Int.tdiv (prev * d + cur * (outr - d)) outr
      let rest := emitLoopFuel inr outr prev cur fuel (d - inr)
      (out :: rest.1, rest.2)
    else ([], d)

/-- The emit loop at its adequate fuel. -/
def emitLoop (inr outr prev cur d : Int) : List Int × Int :=
  emitLoopFuel inr outr prev cur (d.toNat + 1) d

/-- The read loop of `audioop.ratecv`: per input sample, shift the sample
window, advance `d` by the (gcd-reduced) output rate and run the emit loop.
The carried state is `(d, prev, cur)` with `prev`/`cur` in 32-bit scale. -/
def ratecvLoop (inr outr : Int) :
    Int × Int × Int → List Int → List Int × (Int × Int × Int)
  | st, [] => ([], st)
  | (d, _, cur), s :: rest =>
    let scaled := s * 65536
    let e := emitLoop inr outr cur scaled (d + outr)
    let r := ratecvLoop inr outr (e.2, cur, scaled) rest
    (e.1 ++ r.1, r.2)

/-- Model of `audioop.ratecv` for width 2, one channel: reduce the rates by
their gcd, start from the fresh state `(-outrate, 0, 0)` when no state is
given, run the loop and de-scale the emitted samples. -/
def audioop_ratecv (frag : List Int) (inrate outrate : Nat)
    (state : Option (Int × Int × Int)) : List Int × (Int × Int × Int) :=
  let g := Nat.gcd inrate outrate
  let inr : Int := (inrate / g : Nat)
  let outr : Int := (outrate / g : Nat)
  let st0 := state.getD (-outr, 0, 0)
  let r := ratecvLoop inr outr st0 frag
  (r.1.map (fun x => Int.fdiv x 65536), r.2)

/-- Model of `audioop.ulaw2lin` (width 2) on one mulaw byte: complement,
rebuild mantissa with bias 0x84, shift by the segment, apply the sign. -/
def ulaw2lin_sample (u : Nat) : Int :=
  let uv := 255 - u % 256
  let t := (uv % 16 * 8 + 132) * 2 ^ (uv / 16 % 8)
  if 128 ≤ uv then (132 : Int) - t else (t : Int) - 132

/-- The segment boundary table of `audioop.lin2ulaw`. -/
def seg_uend : List Nat := [63, 127, 255, 511, 1023, 2047, 4095, 8191]

/-- The segment search of `audioop.lin2ulaw`: index of the first boundary at
least the value, or 8 when none is. -/
def usearch (val : Nat) : Nat :=
  (seg_uend.takeWhile (fun b => b < val)).length

/-- Model of `audioop.lin2ulaw` (width 2) on one 16-bit sample: arithmetic
shift to 14 bits, split sign and magnitude, clip at 8159, add the shifted
bias 33, find the segment and assemble the complemented code word. -/
def lin2ulaw_sample (pcm16 : Int) : Nat :=
  let pcm14 := Int.fdiv pcm16 4
  let mask : Nat := if pcm14 < 0 then 127 else 255
  let mag : Nat := if pcm14 < 0 then (-pcm14).toNat else pcm14.toNat
  let v := min mag 8159 + 33
  let seg := usearch v
  if 8 ≤ seg then 127 ^^^ mask
  else (seg * 16 + v / 2 ^ (seg + 1) % 16) ^^^ mask

/-- The module-level mutable state of `audio_converter.py`
(`_openai_to_twilio_state`), threaded explicitly. -/
structure AudioState where
  openai_to_twilio_state : Option (Int × Int × Int)
deriving Repr, DecidableEq

/-- The state at module load (`_openai_to_twilio_state = None`). -/
def initialAudioState : AudioState := { openai_to_twilio_state := none }

/-- Model of `reset_conversion_state`: set the global back to `None`. -/
def reset_conversion_state (_g : AudioState) : AudioState :=
  { openai_to_twilio_state := none }

/-- Model of `twilio_to_openai` (base64 layers omitted): decode mulaw to
PCM16, then upsample 8 kHz to 24 kHz statelessly. -/
def twilio_to_openai (mulaw : List Nat) : List Int :=
  let pcm16_8k := mulaw.map ulaw2lin_sample
  (audioop_ratecv pcm16_8k 8000 24000 none).1

/-- Model of `openai_to_twilio` (base64 layers omitted): downsample 24 kHz to
8 kHz with the global resampler state, store the new state back into the
global, then encode to mulaw. -/
def openai_to_twilio (g : AudioState) (pcm16_24k : List Int) :
    List Nat × AudioState :=
  let r := audioop_ratecv pcm16_24k 24000 8000 g.openai_to_twilio_state
  (r.1.map lin2ulaw_sample, { openai_to_twilio_state := some r.2 })

/-! ### The call-log writing operations as one step relation -/

/-- Every modelled operation that writes the `call_logs` table. -/
inductive Op
  | opStatusWebhook (n : StatusNotification)
  | opRecordingWebhook (callSid recordingUrl recordingStatus : Option String)
  | opVoiceWebhook (contact_id call_sid : String) (room_ok : Bool)
  | opOutboundCall (to_phone survey_id contact_id call_sid : String)
      (trunk_id : Option String) (dispatch_ok : Bool)
  | opOnEnter (a : AgentState)
  | opStoreConsent (a : AgentState) (consent : Bool)
  | opStoreResponse (a : AgentState) (qid qtext ans ts : String)
  | opEndSurveyCall (a : AgentState)
  | opOnExit (a : AgentState) (llm : Option (List MappedResponse))

/-- The store effect of each operation. -/
def stepOp (db : DB) : Op → DB
  | .opStatusWebhook n => twilio_status_webhook db n
  | .opRecordingWebhook s u st => twilio_recording_webhook db s u st
  | .opVoiceWebhook cid sid ok => (twilio_voice_webhook db cid sid ok).1
  | .opOutboundCall p s c sid t ok => (initiate_outbound_call db p s c sid t ok).1
  | .opOnEnter a => on_enter db a
  | .opStoreConsent a c => (store_consent db a c).1
  | .opStoreResponse a q t ans ts => (store_response db a q t ans ts).1
  | .opEndSurveyCall a => end_survey_call db a
  | .opOnExit a llm => on_exit db a llm

/-- Whether an operation is the `store_consent` tool. -/
def isStoreConsent : Op → Bool
  | .opStoreConsent _ _ => true
  | _ => false

/-! ### Concrete instances used to evaluate the definitions -/

/-- The empty store. -/
def emptyDB : DB := { call_logs := [], contacts := [], surveys := [], users := [] }

/-- A call log whose status is already terminal. -/
def logTerminal : CallLog :=
  { twilio_call_sid := "CA1"
    contact_id := "c1"
    status := "completed"
    call_duration := 42
    consent := false
    raw_transcript := ""
    raw_responses := []
    mapped_responses := []
    recording_url := none }

/-- A store holding one call log whose status is already terminal. -/
def dbTerminal : DB :=
  { call_logs := [logTerminal], contacts := [], surveys := [], users := [] }

/-- A store holding one call log whose carrier-reported status is `failed`
(the call dropped before the closing state). -/
def dbPartial : DB :=
  { call_logs := [{ logTerminal with status := "failed", call_duration := 12 }]
    contacts := []
    surveys := []
    users := [] }

/-- The single question of the example survey. -/
def questionQ1 : Question :=
  { question_id := "q1"
    question_text := "How satisfied are you"
    question_type := "linear_scale"
    options := [] }

/-- A one-question survey in status `active`. -/
def surveyS : Survey :=
  { survey_id := "S", user_id := "U", status := "active", questions := [questionQ1] }

/-- An agent whose call dropped before any response was captured. -/
def agentPartial : AgentState :=
  { survey := surveyS, contact_id := "c1", call_sid := "CA1",
    conversation_transcript := [], raw_responses := [], consent_given := false }

/-- First campaign contact. -/
def contact1 : Contact :=
  { contact_id := "c1", survey_id := "S", phone_number := "+15550001",
    call_status := none, last_call_error := none }

/-- Second campaign contact (its placement will fail). -/
def contact2 : Contact :=
  { contact_id := "c2", survey_id := "S", phone_number := "+15550002",
    call_status := none, last_call_error := none }

/-- Third campaign contact. -/
def contact3 : Contact :=
  { contact_id := "c3", survey_id := "S", phone_number := "+15550003",
    call_status := none, last_call_error := none }

/-- The owner's user row with a provisioned trunk. -/
def userU : UserRec := { user_id := "U", livekit_trunk_id := some "T1" }

/-- A store with an active survey, its three contacts and a provisioned
trunk for the owner. -/
def dbCampaign : DB :=
  { call_logs := []
    contacts := [contact1, contact2, contact3]
    surveys := [surveyS]
    users := [userU] }

/-- The same store with the survey still in status `draft`. -/
def dbDraft : DB :=
  { call_logs := []
    contacts := [contact1]
    surveys := [{ surveyS with status := "draft" }]
    users := [userU] }

/-- A raw captured answer to the example question. -/
def rawQ1 : RawResponse :=
  { question_id := "q1"
    question_text := "How satisfied are you"
    answer := "four"
    timestamp := "t0" }

/-- Deterministic stand-in for the generated uuid call sids. -/
def testSid (cid : String) : String := "LK-" ++ cid

/-- Dispatch outcome oracle: the external dispatch throws for `c2` only. -/
def testDispatch (cid : String) : Bool := !(cid == "c2")

/-! ## Helper lemmas -/

/-- Mapping a guarded rewrite over a list commutes with `find?` on the same
guard, provided the rewrite preserves the guard. -/
theorem find?_map_guard {α : Type} (p : α → Bool) (f : α → α)
    (hf : ∀ a, p (f a) = p a) :
    ∀ l : List α,
      (l.map (fun a => if p a then f a else a)).find? p = (l.find? p).map f := by
  intro l
  induction l with
  | nil => rfl
  | cons a t ih =>
    simp only [List.map_cons]
    by_cases h : p a = true
    · rw [if_pos h, List.find?_cons_of_pos _ (by rw [hf]; exact h),
        List.find?_cons_of_pos _ h]
      rfl
    · rw [if_neg (by simp [h]), List.find?_cons_of_neg _ (by simp [h]),
        List.find?_cons_of_neg _ (by simp [h]), ih]

/-- `findCallLog` after a keyed update is the mapped `findCallLog`, for
updates that do not touch the call sid. -/
theorem findCallLog_update (db : DB) (sid : String) (f : CallLog → CallLog)
    (hf : ∀ r, (f r).twilio_call_sid = r.twilio_call_sid) :
    findCallLog (updateCallLogs db sid f) sid = (findCallLog db sid).map f := by
  unfold findCallLog updateCallLogs
  exact find?_map_guard _ f (fun r => by simp [hf]) db.call_logs

/-! ## C1: terminal statuses and later non-terminal notifications -/

/-- C1 counterexample.  The claim says a stored terminal status is never
overwritten by a later non-terminal status notification.  In the code the
status webhook carries no terminal-state guard: a call log in terminal
status `completed` processed against a `ringing` notification ends with
stored status `ringing`. -/
theorem terminal_status_overwrite_counterexample :
    (findCallLog dbTerminal "CA1").map (fun r => r.status) = some "completed"
    ∧ isTerminal "completed" = true
    ∧ isTerminal (normalizeStatus "ringing") = false
    ∧ (findCallLog (twilio_status_webhook dbTerminal
        { callSid := some "CA1", callStatus := some "ringing",
          callDuration := 7, recordingUrl := none }) "CA1").map (fun r => r.status)
      = some "ringing" := by decide

/-- C1 amended: the status webhook is last-writer-wins.  Whenever a status
notification with a truthy sid and status arrives for an existing call log,
the stored status becomes the notification's normalized status, regardless
of the previously stored (possibly terminal) status. -/
theorem status_webhook_last_writer_wins (db : DB) (sid st : String)
    (dur : Nat) (ru : Option String) (hsid : sid ≠ "") (hst : st ≠ "")
    (hex : (findCallLog db sid).isSome = true) :
    (findCallLog (twilio_status_webhook db
        { callSid := some sid, callStatus := some st,
          callDuration := dur, recordingUrl := ru }) sid).map (fun r => r.status)
      = some (normalizeStatus st) := by
  obtain ⟨r, hr⟩ := Option.isSome_iff_exists.mp hex
  unfold twilio_status_webhook
  have h1 : truthy (some sid) = true := by simp [truthy, hsid]
  have h2 : truthy (some st) = true := by simp [truthy, hst]
  simp only [h1, h2, Bool.and_self, if_true, Option.getD_some, hex]
  rw [findCallLog_update db sid
    (fun r => { r with
      status := normalizeStatus st
      call_duration := dur
      recording_url := if truthy ru then ru else r.recording_url })
    (fun x => rfl), hr]
  rfl

/-- C1 witness: the amended behaviour evaluated on the terminal store. -/
theorem status_webhook_last_writer_wins_witness :
    (findCallLog (twilio_status_webhook dbTerminal
        { callSid := some "CA1", callStatus := some "in-progress",
          callDuration := 7, recordingUrl := none }) "CA1").map (fun r => r.status)
      = some (normalizeStatus "in-progress") :=
  status_webhook_last_writer_wins dbTerminal "CA1" "in-progress" 7 none
    (by decide) (by decide) (by decide)

/-! ## C2: notifications for unknown call identifiers -/

/-- C2 counterexample.  The claim says a status notification for an unknown
call identifier creates the call log in the implied state.  In the code both
the status and the recording webhook skip such notifications: processing a
`completed` notification against the empty store leaves the store empty. -/
theorem missing_call_log_skip_counterexample :
    twilio_status_webhook emptyDB
      { callSid := some "CA9", callStatus := some "completed",
        callDuration := 30, recordingUrl := none } = emptyDB
    ∧ findCallLog (twilio_status_webhook emptyDB
        { callSid := some "CA9", callStatus := some "completed",
          callDuration := 30, recordingUrl := none }) "CA9" = none := by decide

/-- C2 amended: when no call log exists for the call identifier, the status
webhook and the recording webhook leave the store unchanged (the
notification is skipped, not upserted). -/
theorem webhooks_skip_missing_call_log :
    (∀ (db : DB) (n : StatusNotification) (sid : String),
      n.callSid = some sid → findCallLog db sid = none →
      twilio_status_webhook db n = db)
    ∧ (∀ (db : DB) (sid : String) (url rst : Option String),
      findCallLog db sid = none →
      twilio_recording_webhook db (some sid) url rst = db) := by
  constructor
  · intro db n sid hsid hnone
    unfold twilio_status_webhook
    rw [hsid]
    by_cases h : (truthy (some sid) && truthy n.callStatus) = true
    · rw [if_pos h]
      simp [hnone]
    · rw [if_neg h]
  · intro db sid url rst hnone
    unfold twilio_recording_webhook
    by_cases h : (rst == some "completed" && truthy url && truthy (some sid)) = true
    · rw [if_pos h]
      simp [hnone]
    · rw [if_neg h]

/-- C2 witness: both skips evaluated on the empty store. -/
theorem webhooks_skip_missing_call_log_witness :
    twilio_status_webhook emptyDB
      { callSid := some "CA7", callStatus := some "ringing",
        callDuration := 0, recordingUrl := none } = emptyDB
    ∧ twilio_recording_webhook emptyDB (some "CA7")
        (some "https://api.twilio.com/rec/1") (some "completed") = emptyDB :=
  ⟨webhooks_skip_missing_call_log.1 emptyDB
      { callSid := some "CA7", callStatus := some "ringing",
        callDuration := 0, recordingUrl := none } "CA7" rfl (by decide),
   webhooks_skip_missing_call_log.2 emptyDB "CA7"
      (some "https://api.twilio.com/rec/1") (some "completed") (by decide)⟩

/-! ## C3: the mapper length/id invariant on both paths -/

/-- C3 counterexample.  The claim says the mapper returns exactly `k` mapped
responses with matching ids both on the success path and under fallback.  On
the success path the code returns the parsed model output without any
validation: a model reply parsing to the empty array against one raw
response yields zero mapped responses. -/
theorem mapper_success_unvalidated_counterexample :
    (map_responses_with_llm [rawQ1] (some [])).length = 0
    ∧ [rawQ1].length = 1 := by
  decide

/-- C3 amended: the length/id invariant holds on the fallback path (length
`k`, ids matching index-wise), while on the success path the parsed model
output is returned as-is, so the invariant holds there only if the model
output already satisfies it. -/
theorem mapper_length_invariant_fallback_and_passthrough :
    (∀ raw : List RawResponse,
      (map_responses_with_llm raw none).length = raw.length
      ∧ (map_responses_with_llm raw none).map (fun m => m.question_id)
          = raw.map (fun r => r.question_id))
    ∧ (∀ (raw : List RawResponse) (parsed : List MappedResponse),
      map_responses_with_llm raw (some parsed) = parsed) := by
  refine ⟨fun raw => ⟨?_, ?_⟩, fun raw parsed => rfl⟩
  · simp [map_responses_with_llm]
  · simp [map_responses_with_llm]

/-! ## C4: mapper failure falls back to the identity mapping -/

/-- C4: when the mapping model is unreachable or its output malformed, the
mapper returns the identity mapping (value = raw answer, id = raw id) on
every raw response, and the exit logic persists the transcript whatever the
mapper outcome is (the transcript write precedes the mapping). -/
theorem mapper_fallback_identity_and_transcript_persisted :
    (∀ raw : List RawResponse,
      map_responses_with_llm raw none = raw.map (fun r =>
        ({ question_id := r.question_id, mapped_response := r.answer } :
          MappedResponse)))
    ∧ (∀ (db : DB) (a : AgentState) (llm : Option (List MappedResponse)),
      (findCallLog db a.call_sid).isSome = true →
      (findCallLog (on_exit db a llm) a.call_sid).map (fun r => r.raw_transcript)
        = some (build_transcript a.conversation_transcript)) := by
  constructor
  · intro raw
    rfl
  · intro db a llm hex
    obtain ⟨r, hr⟩ := Option.isSome_iff_exists.mp hex
    unfold on_exit
    by_cases h : a.raw_responses.isEmpty = true
    · rw [if_pos h, findCallLog_update db a.call_sid
        (fun x => { x with
          raw_transcript := build_transcript a.conversation_transcript
          status := "completed" }) (fun x => rfl), hr]
      rfl
    · rw [if_neg h, findCallLog_update _ a.call_sid
        (fun x => { x with
          mapped_responses := map_responses_with_llm a.raw_responses llm })
        (fun x => rfl),
        findCallLog_update db a.call_sid
        (fun x => { x with
          raw_transcript := build_transcript a.conversation_transcript
          status := "completed" }) (fun x => rfl), hr]
      rfl

/-- C4 witness: the fallback and the transcript persistence evaluated on the
dropped-call store. -/
theorem mapper_fallback_identity_and_transcript_persisted_witness :
    map_responses_with_llm [rawQ1] none
      = [{ question_id := "q1", mapped_response := "four" }]
    ∧ (findCallLog (on_exit dbPartial agentPartial none)
        agentPartial.call_sid).map (fun r => r.raw_transcript)
      = some (build_transcript agentPartial.conversation_transcript) :=
  ⟨mapper_fallback_identity_and_transcript_persisted.1 [rawQ1],
   mapper_fallback_identity_and_transcript_persisted.2 dbPartial agentPartial
      none (by decide)⟩

/-! ## C5: exit after a partial conversation -/

/-- C5 counterexample.  The claim says the exit path does not set the status
to `completed`, leaving the carrier's terminal status in place.  In the code
`on_exit` writes status `completed` unconditionally: exiting over a call log
whose carrier status is `failed` leaves it `completed`. -/
theorem exit_forces_completed_counterexample :
    (findCallLog dbPartial "CA1").map (fun r => r.status) = some "failed"
    ∧ isTerminal "failed" = true
    ∧ (findCallLog (on_exit dbPartial agentPartial none) "CA1").map
        (fun r => r.status) = some "completed" := by decide

/-- C5 amended: on any exit over an existing call log, the transcript is
persisted and, when raw responses exist, the mapped responses are persisted,
but the stored status is always set to `completed`, overwriting the
carrier-reported terminal status. -/
theorem on_exit_persists_and_forces_completed (db : DB) (a : AgentState)
    (llm : Option (List MappedResponse))
    (hex : (findCallLog db a.call_sid).isSome = true) :
    (findCallLog (on_exit db a llm) a.call_sid).map (fun r => r.status)
      = some "completed"
    ∧ (findCallLog (on_exit db a llm) a.call_sid).map (fun r => r.raw_transcript)
      = some (build_transcript a.conversation_transcript)
    ∧ (a.raw_responses.isEmpty = false →
      (findCallLog (on_exit db a llm) a.call_sid).map (fun r => r.mapped_responses)
        = some (map_responses_with_llm a.raw_responses llm)) := by
  obtain ⟨r, hr⟩ := Option.isSome_iff_exists.mp hex
  unfold on_exit
  by_cases h : a.raw_responses.isEmpty = true
  · rw [if_pos h, findCallLog_update db a.call_sid
      (fun x => { x with
        raw_transcript := build_transcript a.conversation_transcript
        status := "completed" }) (fun x => rfl), hr]
    exact ⟨rfl, rfl, fun hc => absurd h (by rw [hc]; exact Bool.false_ne_true)⟩
  · rw [if_neg h, findCallLog_update _ a.call_sid
      (fun x => { x with
        mapped_responses := map_responses_with_llm a.raw_responses llm })
      (fun x => rfl),
      findCallLog_update db a.call_sid
      (fun x => { x with
        raw_transcript := build_transcript a.conversation_transcript
        status := "completed" }) (fun x => rfl), hr]
    exact ⟨rfl, rfl, fun hc => rfl⟩

/-- C5 witness: the amended exit behaviour evaluated on the dropped call. -/
theorem on_exit_persists_and_forces_completed_witness :
    (findCallLog (on_exit dbPartial agentPartial none)
        agentPartial.call_sid).map (fun r => r.status) = some "completed" :=
  (on_exit_persists_and_forces_completed dbPartial agentPartial none
    (by decide)).1

/-! ## C6: scope of the toCarrier resampler state -/

/-- C6 counterexample.  The claim says the toCarrier resampler state is
call-scoped and one call's conversions never affect another call's
conversions.  In the code the state is the module-level global
`_openai_to_twilio_state`: after call A (reset, then one converted frame),
call B's conversion of the frame `[1000, 0, 20000]` through the shared
global yields `[140]` (the mulaw code of sample 20000), while the same frame
converted from the reset state yields `[206]` (the mulaw code of sample
1000). -/
theorem resampler_global_state_shared_counterexample :
    (openai_to_twilio
      ((openai_to_twilio (reset_conversion_state initialAudioState)
        [1, 2, 3, 4]).2) [1000, 0, 20000]).1 = [140]
    ∧ (openai_to_twilio (reset_conversion_state initialAudioState)
        [1000, 0, 20000]).1 = [206]
    ∧ (140 : Nat) ≠ 206 := by decide

/-- C6 amended: `reset_conversion_state` does reset the resampler to the
fresh state at the start of a call, making the next conversion independent
of anything earlier; but the state is one process-wide global, so every
conversion overwrites the state observed by every other call. -/
theorem resampler_reset_isolates_and_global_threading :
    (∀ (g h : AudioState) (pcm : List Int),
      openai_to_twilio (reset_conversion_state g) pcm
        = openai_to_twilio (reset_conversion_state h) pcm)
    ∧ (∀ (g : AudioState) (pcm : List Int),
      (openai_to_twilio g pcm).2
        = { openai_to_twilio_state :=
            some (audioop_ratecv pcm 24000 8000 g.openai_to_twilio_state).2 }) :=
  ⟨fun _ _ _ => rfl, fun _ _ => rfl⟩

/-! ## C7: round-trip length stability

The length bookkeeping of `ratecv`: upsampling (reduced rates 1:3) emits
once for the first input sample and three times for every further one;
downsampling (reduced rates 3:1) emits once for every third input sample,
the phase being carried in `d ∈ [-3, -1]`. -/

/-- Down direction, one emission: entering the emit loop at `d = 0` with
input rate 3 emits one sample and leaves `d = -3`. -/
theorem emitLoop_down_step (p c : Int) :
    ((emitLoop 3 1 p c 0).1.length = 1 ∧ (emitLoop 3 1 p c 0).2 = -3) :=
  ⟨rfl, rfl⟩

/-- Up direction, first input sample: entering the emit loop at `d = 0` with
input rate 1 emits one sample and leaves `d = -1`. -/
theorem emitLoop_up_start (p c : Int) :
    ((emitLoop 1 3 p c 0).1.length = 1 ∧ (emitLoop 1 3 p c 0).2 = -1) :=
  ⟨rfl, rfl⟩

/-- Up direction, steady state: entering the emit loop at `d = 2` with input
rate 1 emits three samples and leaves `d = -1`. -/
theorem emitLoop_up_steady (p c : Int) :
    ((emitLoop 1 3 p c 2).1.length = 3 ∧ (emitLoop 1 3 p c 2).2 = -1) :=
  ⟨rfl, rfl⟩

/-- Upsampling from the steady state emits exactly three samples per input
sample. -/
theorem ratecvLoop_up_steady (xs : List Int) :
    ∀ (p c : Int), (ratecvLoop 1 3 (-1, p, c) xs).1.length = 3 * xs.length := by
  induction xs with
  | nil => intro p c; rfl
  | cons s rest ih =>
    intro p c
    show ((emitLoop 1 3 c (s * 65536) (-1 + 3)).1
        ++ (ratecvLoop 1 3 ((emitLoop 1 3 c (s * 65536) (-1 + 3)).2, c, s * 65536)
            rest).1).length = 3 * (s :: rest).length
    have h1 : (emitLoop 1 3 c (s * 65536) (-1 + 3)).1.length = 3 :=
      (emitLoop_up_steady c (s * 65536)).1
    have h2 : (emitLoop 1 3 c (s * 65536) (-1 + 3)).2 = -1 :=
      (emitLoop_up_steady c (s * 65536)).2
    rw [List.length_append, h1, h2, ih c (s * 65536)]
    simp [Nat.mul_succ]
    omega

/-- Upsampling a non-empty frame from the fresh state emits
`3 * length - 2` samples. -/
theorem ratecvLoop_up_init (s : Int) (rest : List Int) (p c : Int) :
    (ratecvLoop 1 3 (-3, p, c) (s :: rest)).1.length
      = 3 * (s :: rest).length - 2 := by
  show ((emitLoop 1 3 c (s * 65536) (-3 + 3)).1
      ++ (ratecvLoop 1 3 ((emitLoop 1 3 c (s * 65536) (-3 + 3)).2, c, s * 65536)
          rest).1).length = 3 * (s :: rest).length - 2
  have h1 : (emitLoop 1 3 c (s * 65536) (-3 + 3)).1.length = 1 :=
    (emitLoop_up_start c (s * 65536)).1
  have h2 : (emitLoop 1 3 c (s * 65536) (-3 + 3)).2 = -1 :=
    (emitLoop_up_start c (s * 65536)).2
  rw [List.length_append, h1, h2, ratecvLoop_up_steady rest c (s * 65536)]
  simp
  omega

/-- Downsampling from any carried phase `d ∈ [-3, -1]` emits
`(length + (d + 3)) / 3` samples. -/
theorem ratecvLoop_down_len (xs : List Int) :
    ∀ (d p c : Int), -3 ≤ d → d ≤ -1 →
      (ratecvLoop 3 1 (d, p, c) xs).1.length = (xs.length + (d + 3).toNat) / 3 := by
  induction xs with
  | nil =>
    intro d p c h1 h2
    show (0 : Nat) = (0 + (d + 3).toNat) / 3
    omega
  | cons s rest ih =>
    intro d p c h1 h2
    interval_cases d
    · show ((emitLoop 3 1 c (s * 65536) (-3 + 1)).1
          ++ (ratecvLoop 3 1 ((emitLoop 3 1 c (s * 65536) (-3 + 1)).2, c, s * 65536)
              rest).1).length = ((s :: rest).length + ((-3 : Int) + 3).toNat) / 3
      have he : emitLoop 3 1 c (s * 65536) (-3 + 1) = ([], -2) := rfl
      rw [he, List.length_append, ih (-2) c (s * 65536) (by omega) (by omega)]
      simp
    · show ((emitLoop 3 1 c (s * 65536) (-2 + 1)).1
          ++ (ratecvLoop 3 1 ((emitLoop 3 1 c (s * 65536) (-2 + 1)).2, c, s * 65536)
              rest).1).length = ((s :: rest).length + ((-2 : Int) + 3).toNat) / 3
      have he : emitLoop 3 1 c (s * 65536) (-2 + 1) = ([], -1) := rfl
      rw [he, List.length_append, ih (-1) c (s * 65536) (by omega) (by omega)]
      simp
    · show ((emitLoop 3 1 c (s * 65536) (-1 + 1)).1
          ++ (ratecvLoop 3 1 ((emitLoop 3 1 c (s * 65536) (-1 + 1)).2, c, s * 65536)
              rest).1).length = ((s :: rest).length + ((-1 : Int) + 3).toNat) / 3
      have h1 : (emitLoop 3 1 c (s * 65536) (-1 + 1)).1.length = 1 :=
        (emitLoop_down_step c (s * 65536)).1
      have h2 : (emitLoop 3 1 c (s * 65536) (-1 + 1)).2 = -3 :=
        (emitLoop_down_step c (s * 65536)).2
      rw [List.length_append, h1, h2, ih (-3) c (s * 65536) (by omega) (by omega)]
      simp
      omega

/-- C7: for every mulaw frame whose sample count is divisible by the 3:1
resampling ratio, the round trip `toCarrier (toPipeline frame)` from the
reset converter state yields a frame with exactly the original sample count
(tolerance zero). -/
theorem roundtrip_length_stable (mulaw : List Nat) (hdvd : 3 ∣ mulaw.length) :
    ((openai_to_twilio (reset_conversion_state initialAudioState)
        (twilio_to_openai mulaw)).1).length = mulaw.length := by
  cases mulaw with
  | nil => rfl
  | cons u us =>
    show (((ratecvLoop 3 1 (-1, 0, 0)
        ((ratecvLoop 1 3 (-3, 0, 0)
          ((u :: us).map ulaw2lin_sample)).1.map (fun x => Int.fdiv x 65536))).1.map
        (fun x => Int.fdiv x 65536)).map lin2ulaw_sample).length = (u :: us).length
    simp only [List.length_map, List.map_cons]
    rw [ratecvLoop_down_len _ (-1) 0 0 (by omega) (by omega)]
    simp only [List.length_map]
    rw [ratecvLoop_up_init (ulaw2lin_sample u) (us.map ulaw2lin_sample) 0 0]
    simp only [List.length_cons, List.length_map]
    omega

/-- C7 witness: the round trip evaluated on a three-sample frame of mulaw
silence. -/
theorem roundtrip_length_stable_witness :
    (3 ∣ ([255, 255, 255] : List Nat).length)
    ∧ ((openai_to_twilio (reset_conversion_state initialAudioState)
        (twilio_to_openai [255, 255, 255])).1).length
      = ([255, 255, 255] : List Nat).length :=
  ⟨by decide, roundtrip_length_stable [255, 255, 255] (by decide)⟩

/-! ## C8: the campaign loop under a failing placement -/

/-- Rows produced by a keyed mark-failed update: every row descends from an
original row with the same contact id, unchanged or marked failed; rows
matching the key are marked failed; and rows already pinned to failed for
any key stay failed. -/
theorem mem_mark_failed (l : List Contact) (cid : String) (f : Contact → Contact)
    (hid : ∀ x, (f x).contact_id = x.contact_id)
    (hfail : ∀ x, (f x).call_status = some "failed") :
    (∀ ct ∈ l.map (fun x => if x.contact_id == cid then f x else x),
      ∃ ct0 ∈ l, ct.contact_id = ct0.contact_id
        ∧ (ct = ct0 ∨ ct.call_status = some "failed"))
    ∧ (∀ ct ∈ l.map (fun x => if x.contact_id == cid then f x else x),
      ct.contact_id = cid → ct.call_status = some "failed")
    ∧ (∀ cid2, (∀ ct ∈ l, ct.contact_id = cid2 → ct.call_status = some "failed") →
      ∀ ct ∈ l.map (fun x => if x.contact_id == cid then f x else x),
        ct.contact_id = cid2 → ct.call_status = some "failed") := by
  refine ⟨?_, ?_, ?_⟩
  · intro ct hct
    obtain ⟨x, hx, hgx⟩ := List.mem_map.mp hct
    by_cases hb : (x.contact_id == cid) = true
    · rw [if_pos hb] at hgx
      subst hgx
      exact ⟨x, hx, hid x, Or.inr (hfail x)⟩
    · rw [if_neg hb] at hgx
      subst hgx
      exact ⟨x, hx, rfl, Or.inl rfl⟩
  · intro ct hct hcid
    obtain ⟨x, hx, hgx⟩ := List.mem_map.mp hct
    by_cases hb : (x.contact_id == cid) = true
    · rw [if_pos hb] at hgx
      subst hgx
      exact hfail x
    · rw [if_neg hb] at hgx
      subst hgx
      exact absurd (beq_iff_eq.mpr hcid) hb
  · intro cid2 hl ct hct hcid
    obtain ⟨x, hx, hgx⟩ := List.mem_map.mp hct
    by_cases hb : (x.contact_id == cid) = true
    · rw [if_pos hb] at hgx
      subst hgx
      exact hfail x
    · rw [if_neg hb] at hgx
      subst hgx
      exact hl x hx hcid

/-- The facts of one campaign loop iteration: surveys and users untouched,
the contact appended to the attempt trace, call logs only extended by
`initiated` records, contact rows only ever rewritten to failed, a failing
dispatch marking all rows of that contact failed, and failed-pinned rows
staying failed. -/
theorem campaignStep_facts (survey_id : String) (sid_of : String → String)
    (dispatch_ok : String → Bool) (db : DB) (placed : List String) (c : Contact) :
    (campaignStep survey_id sid_of dispatch_ok (db, placed) c).1.surveys = db.surveys
    ∧ (campaignStep survey_id sid_of dispatch_ok (db, placed) c).1.users = db.users
    ∧ (campaignStep survey_id sid_of dispatch_ok (db, placed) c).2
        = placed ++ [c.contact_id]
    ∧ (∃ new, (campaignStep survey_id sid_of dispatch_ok (db, placed) c).1.call_logs
        = db.call_logs ++ new ∧ ∀ l ∈ new, l.status = "initiated")
    ∧ (dispatch_ok c.contact_id = false →
      ∀ ct ∈ (campaignStep survey_id sid_of dispatch_ok (db, placed) c).1.contacts,
        ct.contact_id = c.contact_id → ct.call_status = some "failed")
    ∧ (∀ cid2, (∀ ct ∈ db.contacts, ct.contact_id = cid2 → ct.call_status = some "failed") →
      ∀ ct ∈ (campaignStep survey_id sid_of dispatch_ok (db, placed) c).1.contacts,
        ct.contact_id = cid2 → ct.call_status = some "failed") := by
  unfold campaignStep initiate_outbound_call
  cases htr : lookupTrunk db survey_id with
  | none =>
    refine ⟨rfl, rfl, rfl, ⟨[], by simp [updateContactRow], by simp⟩, ?_, ?_⟩
    · intro _hd
      exact (mem_mark_failed db.contacts c.contact_id
        (markContactFailed "No SIP trunk configured")
        (fun x => rfl) (fun x => rfl)).2.1
    · intro cid2 hdb
      exact (mem_mark_failed db.contacts c.contact_id
        (markContactFailed "No SIP trunk configured")
        (fun x => rfl) (fun x => rfl)).2.2 cid2 hdb
  | some t =>
    by_cases hd : dispatch_ok c.contact_id = true
    · rw [if_pos hd]
      refine ⟨rfl, rfl, rfl,
        ⟨[initialCallLog (sid_of c.contact_id) c.contact_id "initiated"],
          rfl, ?_⟩, ?_, ?_⟩
      · intro l hl
        simp only [List.mem_singleton] at hl
        rw [hl]
        rfl
      · intro hfalse
        exact absurd (hd.symm.trans hfalse) (by decide)
      · intro cid2 hdb
        exact fun ct hct => hdb ct hct
    · rw [if_neg hd]
      refine ⟨rfl, rfl, rfl,
        ⟨[initialCallLog (sid_of c.contact_id) c.contact_id "initiated"],
          by simp [updateContactRow, insertCallLog], ?_⟩, ?_, ?_⟩
      · intro l hl
        simp only [List.mem_singleton] at hl
        rw [hl]
        rfl
      · intro _hd
        exact (mem_mark_failed (insertCallLog db
            (initialCallLog (sid_of c.contact_id) c.contact_id "initiated")).contacts
          c.contact_id (markContactFailed "Agent dispatch failed")
          (fun x => rfl) (fun x => rfl)).2.1
      · intro cid2 hdb
        exact (mem_mark_failed (insertCallLog db
            (initialCallLog (sid_of c.contact_id) c.contact_id "initiated")).contacts
          c.contact_id (markContactFailed "Agent dispatch failed")
          (fun x => rfl) (fun x => rfl)).2.2 cid2 hdb

/-- The facts of the whole campaign loop, by induction along the contact
list: surveys and users untouched, the trace extended by every contact in
order, call logs only extended by `initiated` records, failed-pinned contact
rows staying failed, and every contact whose dispatch fails ending marked
failed. -/
theorem campaignFold_facts (survey_id : String) (sid_of : String → String)
    (dispatch_ok : String → Bool) :
    ∀ (cs : List Contact) (db : DB) (placed : List String),
      (cs.foldl (campaignStep survey_id sid_of dispatch_ok) (db, placed)).1.surveys
        = db.surveys
      ∧ (cs.foldl (campaignStep survey_id sid_of dispatch_ok) (db, placed)).1.users
        = db.users
      ∧ (cs.foldl (campaignStep survey_id sid_of dispatch_ok) (db, placed)).2
        = placed ++ cs.map (fun c => c.contact_id)
      ∧ (∃ new,
          (cs.foldl (campaignStep survey_id sid_of dispatch_ok) (db, placed)).1.call_logs
            = db.call_logs ++ new ∧ ∀ l ∈ new, l.status = "initiated")
      ∧ (∀ cid2,
          (∀ ct ∈ db.contacts, ct.contact_id = cid2 → ct.call_status = some "failed") →
          ∀ ct ∈ (cs.foldl (campaignStep survey_id sid_of dispatch_ok)
              (db, placed)).1.contacts,
            ct.contact_id = cid2 → ct.call_status = some "failed")
      ∧ (∀ c ∈ cs, dispatch_ok c.contact_id = false →
          ∀ ct ∈ (cs.foldl (campaignStep survey_id sid_of dispatch_ok)
              (db, placed)).1.contacts,
            ct.contact_id = c.contact_id → ct.call_status = some "failed") := by
  intro cs
  induction cs with
  | nil =>
    intro db placed
    refine ⟨rfl, rfl, by simp, ⟨[], by simp, by simp⟩, ?_, ?_⟩
    · intro cid2 hdb
      exact hdb
    · intro c hc
      exact absurd hc (List.not_mem_nil c)
  | cons c cs ih =>
    intro db placed
    obtain ⟨hsv, hus, htr, ⟨new1, hlog, hinit⟩, hfailc, hpin⟩ :=
      campaignStep_facts survey_id sid_of dispatch_ok db placed c
    obtain ⟨ihsv, ihus, ihtr, ⟨new2, ihlog, ihinit⟩, ihpin, ihfail⟩ :=
      ih (campaignStep survey_id sid_of dispatch_ok (db, placed) c).1
        (campaignStep survey_id sid_of dispatch_ok (db, placed) c).2
    have hfold : (c :: cs).foldl (campaignStep survey_id sid_of dispatch_ok)
        (db, placed)
        = cs.foldl (campaignStep survey_id sid_of dispatch_ok)
            ((campaignStep survey_id sid_of dispatch_ok (db, placed) c).1,
             (campaignStep survey_id sid_of dispatch_ok (db, placed) c).2) := by
      rw [List.foldl_cons]
    rw [hfold]
    refine ⟨by rw [ihsv, hsv], by rw [ihus, hus], ?_, ?_, ?_, ?_⟩
    · rw [ihtr, htr]
      simp
    · refine ⟨new1 ++ new2, ?_, ?_⟩
      · rw [ihlog, hlog, List.append_assoc]
      · intro l hl
        rcases List.mem_append.mp hl with h | h
        · exact hinit l h
        · exact ihinit l h
    · intro cid2 hdb
      exact ihpin cid2 (hpin cid2 hdb)
    · intro x hx hdx
      rcases List.mem_cons.mp hx with h | h
      · subst h
        exact ihpin x.contact_id (hfailc hdx)
      · exact ihfail x h hdx

/-- Rows produced by the closing survey update: every row whose id matches
the campaign survey ends with status `closed`. -/
theorem mem_close_survey (l : List Survey) (sid : String) :
    ∀ s ∈ l.map (fun x => if x.survey_id == sid then
        { x with status := "closed" } else x),
      s.survey_id = sid → s.status = "closed" := by
  intro s hs hsid
  obtain ⟨x, hx, hgx⟩ := List.mem_map.mp hs
  by_cases hb : (x.survey_id == sid) = true
  · rw [if_pos hb] at hgx
    subst hgx
    rfl
  · rw [if_neg hb] at hgx
    subst hgx
    exact absurd (beq_iff_eq.mpr hsid) hb

/-- C8 counterexample.  The claim says a failing placement yields a failed
CallAttempt record.  On the dispatcher that closes the survey
(`execute_campaign_calls`), three contacts with the second placement
throwing give three placement attempts and a closed survey, but zero call
logs in status `failed`: the failure is recorded on the contact row
instead. -/
theorem dispatch_failure_no_failed_call_log_counterexample :
    (execute_campaign_calls dbCampaign "S" [contact1, contact2, contact3]
        "T1" "+15559999" testSid testDispatch).2.length = 3
    ∧ ((execute_campaign_calls dbCampaign "S" [contact1, contact2, contact3]
        "T1" "+15559999" testSid testDispatch).1.surveys.map
          (fun s => s.status)) = ["closed"]
    ∧ ((execute_campaign_calls dbCampaign "S" [contact1, contact2, contact3]
        "T1" "+15559999" testSid testDispatch).1.call_logs.filter
          (fun l => l.status == "failed")).length = 0
    ∧ ((execute_campaign_calls dbCampaign "S" [contact1, contact2, contact3]
        "T1" "+15559999" testSid testDispatch).1.contacts.map
          (fun ct => ct.call_status))
      = [none, some "failed", none] := by decide

/-- C8 amended: a placement failure does not halt the loop - every contact
receives a placement attempt in order and the survey is then closed - but
the failing contact is recorded as failed on its contact row
(`call_status = "failed"`), not as a failed CallAttempt: the call logs
created by the loop all carry status `initiated`. -/
theorem execute_campaign_calls_spec (db : DB) (survey_id trunk_id phone : String)
    (contacts : List Contact) (sid_of : String → String)
    (dispatch_ok : String → Bool) :
    (execute_campaign_calls db survey_id contacts trunk_id phone
        sid_of dispatch_ok).2 = contacts.map (fun c => c.contact_id)
    ∧ (∀ s ∈ (execute_campaign_calls db survey_id contacts trunk_id phone
        sid_of dispatch_ok).1.surveys, s.survey_id = survey_id → s.status = "closed")
    ∧ (∃ new, (execute_campaign_calls db survey_id contacts trunk_id phone
        sid_of dispatch_ok).1.call_logs = db.call_logs ++ new
        ∧ ∀ l ∈ new, l.status = "initiated")
    ∧ (∀ c ∈ contacts, dispatch_ok c.contact_id = false →
        ∀ ct ∈ (execute_campaign_calls db survey_id contacts trunk_id phone
          sid_of dispatch_ok).1.contacts,
          ct.contact_id = c.contact_id → ct.call_status = some "failed") := by
  obtain ⟨hsv, _hus, htr, ⟨new, hlog, hinit⟩, _hpin, hfail⟩ :=
    campaignFold_facts survey_id sid_of dispatch_ok contacts db []
  unfold execute_campaign_calls
  refine ⟨by rw [htr]; simp, ?_, ⟨new, by rw [← hlog]; rfl, hinit⟩, ?_⟩
  · intro s hs
    have : (updateSurveyRow
        (contacts.foldl (campaignStep survey_id sid_of dispatch_ok) (db, [])).1
        survey_id (fun x => { x with status := "closed" })).surveys
        = ((contacts.foldl (campaignStep survey_id sid_of dispatch_ok)
            (db, [])).1.surveys).map (fun x => if x.survey_id == survey_id then
              { x with status := "closed" } else x) := rfl
    rw [this] at hs
    exact mem_close_survey _ survey_id s hs
  · intro c hc hdc ct hct
    exact hfail c hc hdc ct hct

/-- C8 witness: the amended loop facts evaluated on the three-contact
campaign with the second dispatch failing. -/
theorem execute_campaign_calls_spec_witness :
    (execute_campaign_calls dbCampaign "S" [contact1, contact2, contact3]
        "T1" "+15559999" testSid testDispatch).2 = ["c1", "c2", "c3"]
    ∧ (markContactFailed "Agent dispatch failed" contact2).call_status
      = some "failed" :=
  ⟨(execute_campaign_calls_spec dbCampaign "S" "T1" "+15559999"
      [contact1, contact2, contact3] testSid testDispatch).1,
   (execute_campaign_calls_spec dbCampaign "S" "T1" "+15559999"
      [contact1, contact2, contact3] testSid testDispatch).2.2.2 contact2
      (by decide) (by decide)
      (markContactFailed "Agent dispatch failed" contact2) (by decide) rfl⟩

/-! ## C9: preconditions of the campaign launch operations -/

/-- C9 counterexample.  The claim says the campaign launch fails whenever
the survey is not `active`.  The `/campaigns/launch` endpoint performs no
active-status check: on a `draft` survey with one contact it succeeds (and
itself flips the status to `active`), while the orchestrator's
`start_campaign` on the same store rejects. -/
theorem launch_campaign_ignores_active_counterexample :
    ((dbDraft.surveys.find? (fun s => s.survey_id == "S" && s.user_id == "U")).map
      (fun s => s.status)) = some "draft"
    ∧ (launch_campaign dbDraft "S" "U" false).isOk = true
    ∧ start_campaign dbDraft "S" "U" = .error .surveyNotActive :=
  ⟨rfl, rfl, rfl⟩

/-- C9 amended: the orchestrator's `start_campaign` rejects a non-active
survey and an active survey without contacts, and succeeds (returning
immediately) on an active survey with at least one contact; the
`/campaigns/launch` endpoint rejects only a missing survey or an empty
contact list, succeeding regardless of the survey status (which it sets to
`active` itself). -/
theorem campaign_launch_preconditions (db : DB) (survey_id user_id : String)
    (survey : Survey)
    (hfind : db.surveys.find?
      (fun s => s.survey_id == survey_id && s.user_id == user_id) = some survey) :
    (survey.status ≠ "active" →
      start_campaign db survey_id user_id = .error .surveyNotActive)
    ∧ (survey.status = "active" →
      (db.contacts.filter (fun c => c.survey_id == survey_id)).isEmpty = true →
      start_campaign db survey_id user_id = .error .noContacts)
    ∧ (survey.status = "active" →
      (db.contacts.filter (fun c => c.survey_id == survey_id)).isEmpty = false →
      (start_campaign db survey_id user_id).isOk = true)
    ∧ (∀ test_mode,
      (db.contacts.filter (fun c => c.survey_id == survey_id)).isEmpty = false →
      (launch_campaign db survey_id user_id test_mode).isOk = true) := by
  refine ⟨?_, ?_, ?_, ?_⟩
  · intro hst
    unfold start_campaign
    simp only [hfind]
    rw [if_pos (bne_iff_ne.mpr hst)]
  · intro hst hempty
    unfold start_campaign
    simp only [hfind]
    rw [if_neg (fun hh => (bne_iff_ne.mp hh) hst), if_pos hempty]
  · intro hst hempty
    unfold start_campaign
    simp only [hfind]
    rw [if_neg (fun hh => (bne_iff_ne.mp hh) hst),
      if_neg (fun hh => Bool.false_ne_true (by rw [hempty] at hh; exact hh))]
    rfl
  · intro test_mode hempty
    unfold launch_campaign
    simp only [hfind]
    rw [if_neg (fun hh => Bool.false_ne_true (by rw [hempty] at hh; exact hh))]
    rfl

/-- C9 witness: the precondition behaviour evaluated on the active
three-contact store and on the draft store. -/
theorem campaign_launch_preconditions_witness :
    (start_campaign dbCampaign "S" "U").isOk = true
    ∧ start_campaign dbDraft "S" "U" = .error .surveyNotActive
    ∧ (launch_campaign dbDraft "S" "U" false).isOk = true :=
  ⟨(campaign_launch_preconditions dbCampaign "S" "U" surveyS
      (by decide)).2.2.1 rfl (by decide),
   (campaign_launch_preconditions dbDraft "S" "U"
      { surveyS with status := "draft" } (by decide)).1 (by decide),
   (campaign_launch_preconditions dbDraft "S" "U"
      { surveyS with status := "draft" } (by decide)).2.2.2 false (by decide)⟩

/-! ## C10: initialization of created call logs and the consent flip -/

/-- Keyed call-log updates that do not touch the consent field preserve the
all-consent-false invariant. -/
theorem consent_false_update (l : List CallLog) (sid : String)
    (f : CallLog → CallLog) (hf : ∀ x, (f x).consent = x.consent)
    (hall : ∀ r ∈ l, r.consent = false) :
    ∀ r ∈ l.map (fun x => if x.twilio_call_sid == sid then f x else x),
      r.consent = false := by
  intro r hr
  obtain ⟨x, hx, hgx⟩ := List.mem_map.mp hr
  by_cases hb : (x.twilio_call_sid == sid) = true
  · rw [if_pos hb] at hgx
    subst hgx
    rw [hf x]
    exact hall x hx
  · rw [if_neg hb] at hgx
    subst hgx
    exact hall x hx

/-- Appending a consent-false record preserves the all-consent-false
invariant. -/
theorem consent_false_insert (l : List CallLog) (new : CallLog)
    (hnew : new.consent = false) (hall : ∀ r ∈ l, r.consent = false) :
    ∀ r ∈ l ++ [new], r.consent = false := by
  intro r hr
  rcases List.mem_append.mp hr with h | h
  · exact hall r h
  · rw [List.mem_singleton.mp h]
    exact hnew

/-- C10: every call log created at the three creation sites (inbound voice
webhook, outbound placement, agent session start) is the initial record with
consent `false`, empty transcript, empty raw responses and empty mapped
responses; no modelled call-log-writing operation other than the
`store_consent` tool can make any stored consent flag true; and
`store_consent` with `true` sets it on the call's record. -/
theorem call_attempt_initialization_and_consent :
    (∀ (db : DB) (cid sid : String) (c : Contact) (s : Survey),
      db.contacts.find? (fun x => x.contact_id == cid) = some c →
      db.surveys.find? (fun x => x.survey_id == c.survey_id) = some s →
      s.questions.isEmpty = false →
      (twilio_voice_webhook db cid sid true).1.call_logs
        = db.call_logs ++ [initialCallLog sid cid "in_progress"])
    ∧ (∀ (db : DB) (phone svid cid sid : String) (ok : Bool) (t : String),
      lookupTrunk db svid = some t →
      (initiate_outbound_call db phone svid cid sid none ok).1.call_logs
        = db.call_logs ++ [initialCallLog sid cid "initiated"])
    ∧ (∀ (db : DB) (a : AgentState),
      findCallLog db a.call_sid = none →
      (on_enter db a).call_logs
        = db.call_logs ++ [initialCallLog a.call_sid a.contact_id "in_progress"])
    ∧ (∀ (db : DB) (op : Op), isStoreConsent op = false →
      (∀ r ∈ db.call_logs, r.consent = false) →
      ∀ r ∈ (stepOp db op).call_logs, r.consent = false)
    ∧ (∀ (db : DB) (a : AgentState),
      ∀ r ∈ (store_consent db a true).1.call_logs,
        r.twilio_call_sid = a.call_sid → r.consent = true) := by
  refine ⟨?_, ?_, ?_, ?_, ?_⟩
  · intro db cid sid c s hc hs hq
    unfold twilio_voice_webhook
    rw [hc]
    dsimp only
    rw [hs]
    dsimp only
    rw [if_neg (fun hh => Bool.false_ne_true (by rw [hq] at hh; exact hh)),
      if_pos rfl]
    rfl
  · intro db phone svid cid sid ok t ht
    unfold initiate_outbound_call
    rw [ht]
    cases ok with
    | true => rfl
    | false => rfl
  · intro db a hnone
    unfold on_enter
    rw [hnone]
    rfl
  · intro db op hop hall
    cases op with
    | opStatusWebhook n =>
      show ∀ r ∈ (twilio_status_webhook db n).call_logs, r.consent = false
      unfold twilio_status_webhook
      by_cases h1 : (truthy n.callSid && truthy n.callStatus) = true
      · rw [if_pos h1]
        by_cases h2 : (findCallLog db (n.callSid.getD "")).isSome = true
        · rw [if_pos h2]
          exact consent_false_update db.call_logs (n.callSid.getD "") _
            (fun x => rfl) hall
        · rw [if_neg h2]
          exact hall
      · rw [if_neg h1]
        exact hall
    | opRecordingWebhook cs ru rs =>
      show ∀ r ∈ (twilio_recording_webhook db cs ru rs).call_logs, r.consent = false
      unfold twilio_recording_webhook
      by_cases h1 : (rs == some "completed" && truthy ru && truthy cs) = true
      · rw [if_pos h1]
        by_cases h2 : (findCallLog db (cs.getD "")).isSome = true
        · rw [if_pos h2]
          exact consent_false_update db.call_logs (cs.getD "") _
            (fun x => rfl) hall
        · rw [if_neg h2]
          exact hall
      · rw [if_neg h1]
        exact hall
    | opVoiceWebhook cid sid ok =>
      show ∀ r ∈ (twilio_voice_webhook db cid sid ok).1.call_logs, r.consent = false
      unfold twilio_voice_webhook
      cases hc : db.contacts.find? (fun x => x.contact_id == cid) with
      | none => exact hall
      | some c =>
        dsimp only
        cases hs : db.surveys.find? (fun x => x.survey_id == c.survey_id) with
        | none => exact hall
        | some s =>
          dsimp only
          by_cases hq : s.questions.isEmpty = true
          · rw [if_pos hq]
            exact hall
          · rw [if_neg hq]
            cases ok with
            | true =>
              exact consent_false_insert db.call_logs _ rfl hall
            | false => exact hall
    | opOutboundCall phone svid cid sid tr ok =>
      show ∀ r ∈ (initiate_outbound_call db phone svid cid sid tr ok).1.call_logs,
        r.consent = false
      unfold initiate_outbound_call
      cases tr with
      | some t =>
        cases ok with
        | true => exact consent_false_insert db.call_logs _ rfl hall
        | false => exact consent_false_insert db.call_logs _ rfl hall
      | none =>
        cases ht : lookupTrunk db svid with
        | none => exact hall
        | some t =>
          cases ok with
          | true => exact consent_false_insert db.call_logs _ rfl hall
          | false => exact consent_false_insert db.call_logs _ rfl hall
    | opOnEnter a =>
      show ∀ r ∈ (on_enter db a).call_logs, r.consent = false
      unfold on_enter
      by_cases h : (findCallLog db a.call_sid).isSome = true
      · rw [if_pos h]
        exact hall
      · rw [if_neg h]
        exact consent_false_insert db.call_logs _ rfl hall
    | opStoreConsent a c =>
      simp [isStoreConsent] at hop
    | opStoreResponse a q qt ans ts =>
      show ∀ r ∈ (store_response db a q qt ans ts).1.call_logs, r.consent = false
      exact consent_false_update db.call_logs a.call_sid _ (fun x => rfl) hall
    | opEndSurveyCall a =>
      show ∀ r ∈ (end_survey_call db a).call_logs, r.consent = false
      exact consent_false_update db.call_logs a.call_sid _ (fun x => rfl) hall
    | opOnExit a llm =>
      show ∀ r ∈ (on_exit db a llm).call_logs, r.consent = false
      unfold on_exit
      by_cases h : a.raw_responses.isEmpty = true
      · rw [if_pos h]
        exact consent_false_update db.call_logs a.call_sid _ (fun x => rfl) hall
      · rw [if_neg h]
        exact consent_false_update _ a.call_sid _ (fun x => rfl)
          (consent_false_update db.call_logs a.call_sid _ (fun x => rfl) hall)
  · intro db a r hr hsid
    obtain ⟨x, hx, hgx⟩ := List.mem_map.mp hr
    by_cases hb : (x.twilio_call_sid == a.call_sid) = true
    · rw [if_pos hb] at hgx
      subst hgx
      rfl
    · rw [if_neg hb] at hgx
      subst hgx
      exact absurd (beq_iff_eq.mpr hsid) hb

/-- C10 witness: the creation sites and the consent flip evaluated on
concrete stores. -/
theorem call_attempt_initialization_and_consent_witness :
    (on_enter emptyDB agentPartial).call_logs
      = emptyDB.call_logs ++ [initialCallLog "CA1" "c1" "in_progress"]
    ∧ (initiate_outbound_call dbCampaign "+15550001" "S" "c1" "LK-c1"
        none true).1.call_logs
      = dbCampaign.call_logs ++ [initialCallLog "LK-c1" "c1" "initiated"]
    ∧ (∀ r ∈ (stepOp dbPartial (Op.opEndSurveyCall agentPartial)).call_logs,
        r.consent = false) :=
  ⟨call_attempt_initialization_and_consent.2.2.1 emptyDB agentPartial (by decide),
   call_attempt_initialization_and_consent.2.1 dbCampaign "+15550001" "S" "c1"
      "LK-c1" true "T1" (by decide),
   call_attempt_initialization_and_consent.2.2.2.1 dbPartial
      (Op.opEndSurveyCall agentPartial) rfl (by decide)⟩

end VoiceSurvey
